import Mathlib

/-!
Shallow embedding of `src/vppcfg/vppcfg.py` (function `main`, lines 200-301).

The single source file is the CLI orchestration shim: it dispatches on the
subcommand (`check`, `dump`, `plan`, `apply`), loads and validates the
configuration document, constructs the `Reconciler`, acquires a live or mocked
dataplane snapshot, runs the precondition checks, runs the three planning
phases (prune, create, sync) under the force-continue policy, optionally
serializes the plan, and exits with a per-failure exit code.

The external collaborators (`Validator.valid_config`, `Dumper.readconfig`,
`Dumper.write`, `Reconciler.vpp.mockconfig`, `Reconciler.vpp.readconfig`,
`Reconciler.phys_exist_in_vpp`, `Reconciler.phys_exist_in_config`,
`Reconciler.lcps_exist_with_lcp_enabled`, `Reconciler.prune/create/sync`,
`Reconciler.write`, and the `open()` of the config file) are opaque boolean
calls as far as `main` is concerned; we model each call's outcome as a field
of an environment record, and `main` as a function from the parsed arguments
and that environment to the ordered trace of external calls it makes plus its
terminal outcome.

One Python subtlety is modelled faithfully: the `--novpp` flag is declared
only on the `plan` subparser (lines 133-138), so for the `apply` subcommand
the attribute access `args.novpp` at line 247 raises an uncaught
`AttributeError` (the author guards `vpp_json_dir`/`vpp_api_socket` with
`"..." in args` at lines 216-219 but not `novpp`).  A run of `apply` that
passes validation therefore terminates with a crash, not a `sys.exit`; this
is the `Outcome.crashed` case below.
-/

namespace Vppcfg

/-- The four subcommands registered on the argument parser (lines 65-198).
An invocation with no subcommand prints help and exits 0 before any of the
modelled logic runs (lines 201-204), so it is not represented. -/
inductive Command
  | check
  | dump
  | plan
  | apply
deriving DecidableEq

/-- The parsed command-line arguments that `main` consults after line 220:
the subcommand, the global `--force` flag (lines 57-63), and the `plan`-only
`--novpp` flag (lines 133-138).  The `novpp` field is only meaningful when
`command = plan`; for `apply` the attribute does not exist on the namespace
and reading it crashes (see `main`). -/
structure Args where
  command : Command
  force : Bool
  novpp : Bool
deriving DecidableEq

/-- Outcomes of the external calls `main` can make, one field per call site.
`true` means the call reported success. -/
structure Env where
  dumper_readconfig_ok : Bool
  open_config_ok : Bool
  valid_config_ok : Bool
  mockconfig_ok : Bool
  readconfig_ok : Bool
  phys_exist_in_vpp_ok : Bool
  phys_exist_in_config_ok : Bool
  lcps_exist_with_lcp_enabled_ok : Bool
  prune_ok : Bool
  create_ok : Bool
  sync_ok : Bool
deriving DecidableEq

/-- The observable external calls of `main`, in source order of their call
sites.  `write b` is `reconciler.write(args.outfile, emit_ok=b)` (line 291). -/
inductive Event
  | dumper_readconfig
  | dumper_write
  | open_config
  | valid_config
  | mk_reconciler
  | mockconfig
  | readconfig
  | phys_exist_in_vpp
  | phys_exist_in_config
  | lcps_exist_with_lcp_enabled
  | prune
  | create
  | sync
  | write (emit_ok : Bool)
deriving DecidableEq

/-- Terminal outcome of a run: `sys.exit(code)`, or an uncaught Python
exception (`AttributeError` at line 247 for the `apply` subcommand). -/
inductive Outcome
  | exited (code : Int)
  | crashed
deriving DecidableEq

/-- Lines 268-301 of `main`: the three planning phases under the
force-continue policy, then plan serialization for the `plan` subcommand and
the final exit.  `t` is the trace accumulated so far.  `failed` mirrors the
Python local of the same name (line 268): a phase failure either aborts the
run at that phase (no `--force`) or sets `failed` and continues. -/
def phases (args : Args) (env : Env) (t : List Event) : List Event × Outcome :=
  if !env.prune_ok && !args.force then
    (t ++ [Event.prune], Outcome.exited (-10))
  else if !env.create_ok && !args.force then
    (t ++ [Event.prune, Event.create], Outcome.exited (-20))
  else if !env.sync_ok && !args.force then
    (t ++ [Event.prune, Event.create, Event.sync], Outcome.exited (-30))
  else
    -- here each phase either succeeded or had its failure tolerated by
    -- --force; `failed` is true exactly when some phase reported failure
    let failed := !env.prune_ok || !env.create_ok || !env.sync_ok
    let t3 := t ++ [Event.prune, Event.create, Event.sync]
    let t4 := if args.command = Command.plan then t3 ++ [Event.write !failed] else t3
    if failed then
      (t4, Outcome.exited (-40))
    else
      (t4, Outcome.exited 0)

/-- Lines 221-301 of `main` in `src/vppcfg/vppcfg.py`, as a function from the
parsed arguments and the environment of external-call outcomes to the trace of
external calls made (in order) and the terminal outcome. -/
def main (args : Args) (env : Env) : List Event × Outcome :=
  -- lines 221-227: the dump subcommand never opens the config file
  if args.command = Command.dump then
    if !env.dumper_readconfig_ok then
      ([Event.dumper_readconfig], Outcome.exited (-7))
    else
      ([Event.dumper_readconfig, Event.dumper_write], Outcome.exited 0)
  else
    -- lines 229-236: open and parse the configuration file
    if !env.open_config_ok then
      ([Event.open_config], Outcome.exited (-1))
    -- lines 238-242: schema/semantic validation
    else if !env.valid_config_ok then
      ([Event.open_config, Event.valid_config], Outcome.exited (-2))
    -- lines 243-244: check exits right after validation
    else if args.command = Command.check then
      ([Event.open_config, Event.valid_config], Outcome.exited 0)
    -- line 246: the Reconciler is constructed for plan and apply
    -- line 247: `if args.novpp:` -- the apply subparser has no novpp
    -- attribute, so this access raises AttributeError for apply
    else if args.command = Command.apply then
      ([Event.open_config, Event.valid_config, Event.mk_reconciler], Outcome.crashed)
    else
      let t0 := [Event.open_config, Event.valid_config, Event.mk_reconciler]
      if args.novpp then
        -- lines 247-249: synthetic dataplane, no precondition checks
        if !env.mockconfig_ok then
          (t0 ++ [Event.mockconfig], Outcome.exited (-7))
        else
          phases args env (t0 ++ [Event.mockconfig])
      else
        -- lines 250-252: query the live dataplane
        if !env.readconfig_ok then
          (t0 ++ [Event.readconfig], Outcome.exited (-3))
        -- lines 254-266: the three precondition checks
        else if !env.phys_exist_in_vpp_ok then
          (t0 ++ [Event.readconfig, Event.phys_exist_in_vpp], Outcome.exited (-4))
        else if !env.phys_exist_in_config_ok then
          (t0 ++ [Event.readconfig, Event.phys_exist_in_vpp,
            Event.phys_exist_in_config], Outcome.exited (-5))
        else if !env.lcps_exist_with_lcp_enabled_ok then
          (t0 ++ [Event.readconfig, Event.phys_exist_in_vpp,
            Event.phys_exist_in_config, Event.lcps_exist_with_lcp_enabled],
            Outcome.exited (-6))
        else
          phases args env (t0 ++ [Event.readconfig, Event.phys_exist_in_vpp,
            Event.phys_exist_in_config, Event.lcps_exist_with_lcp_enabled])

/-- The planning-phase invocations occurring in a trace, in order. -/
def phase_events (t : List Event) : List Event :=
  t.filter fun e => e == Event.prune || e == Event.create || e == Event.sync

/-- Decides whether a trace's planning-phase events form an initial segment of
prune, create, sync. -/
def is_phase_initial : List Event → Bool
  | [] => true
  | [Event.prune] => true
  | [Event.prune, Event.create] => true
  | [Event.prune, Event.create, Event.sync] => true
  | _ => false

/-- The failure categories that the spec's CLI surface maps to distinct exit
codes: validation failure, the three precondition failures, the three
per-phase planning failures, and the forced-partial failure. -/
inductive FailureClass
  | validation
  | phys_in_vpp
  | phys_in_config
  | lcp
  | prune
  | create
  | sync
  | forced
deriving DecidableEq

/-- The exit code the source assigns to each failure category (lines 241,
256, 260, 266, 272, 279, 286, 295). -/
def class_code : FailureClass → Int
  | FailureClass.validation => -2
  | FailureClass.phys_in_vpp => -4
  | FailureClass.phys_in_config => -5
  | FailureClass.lcp => -6
  | FailureClass.prune => -10
  | FailureClass.create => -20
  | FailureClass.sync => -30
  | FailureClass.forced => -40

/-- What it means, in terms of the run's trace and environment, for a given
failure category to be the one that failed. -/
def class_failed : FailureClass → Args → Env → List Event → Prop
  | FailureClass.validation, _, e, t => Event.valid_config ∈ t ∧ e.valid_config_ok = false
  | FailureClass.phys_in_vpp, _, e, t =>
      Event.phys_exist_in_vpp ∈ t ∧ e.phys_exist_in_vpp_ok = false
  | FailureClass.phys_in_config, _, e, t =>
      Event.phys_exist_in_config ∈ t ∧ e.phys_exist_in_config_ok = false
  | FailureClass.lcp, _, e, t =>
      Event.lcps_exist_with_lcp_enabled ∈ t ∧ e.lcps_exist_with_lcp_enabled_ok = false
  | FailureClass.prune, a, e, t => Event.prune ∈ t ∧ e.prune_ok = false ∧ a.force = false
  | FailureClass.create, a, e, t => Event.create ∈ t ∧ e.create_ok = false ∧ a.force = false
  | FailureClass.sync, a, e, t => Event.sync ∈ t ∧ e.sync_ok = false ∧ a.force = false
  | FailureClass.forced, a, e, t =>
      a.force = true ∧ (e.prune_ok = false ∨ e.create_ok = false ∨ e.sync_ok = false) ∧
      Event.prune ∈ t ∧ Event.create ∈ t ∧ Event.sync ∈ t

/-- A run that fails a precondition check: one of the three checks was invoked
and its result was failure. -/
abbrev precondition_failed (e : Env) (t : List Event) : Prop :=
  (Event.phys_exist_in_vpp ∈ t ∧ e.phys_exist_in_vpp_ok = false) ∨
  (Event.phys_exist_in_config ∈ t ∧ e.phys_exist_in_config_ok = false) ∨
  (Event.lcps_exist_with_lcp_enabled ∈ t ∧ e.lcps_exist_with_lcp_enabled_ok = false)

/-- Terminal-state discipline of a run that reached the planning phases:
exactly one of succeeded (exit 0), failed-aborted at the failing phase (exit
code -10, -20 or -30, later phases not attempted), or failed-forced (exit -40
after all three phases were attempted). -/
abbrev run_concl (a : Args) (e : Env) (t : List Event) (o : Outcome) : Prop :=
  (o = Outcome.exited 0 ∨ o = Outcome.exited (-10) ∨ o = Outcome.exited (-20) ∨
    o = Outcome.exited (-30) ∨ o = Outcome.exited (-40)) ∧
  (e.prune_ok = true → e.create_ok = true → e.sync_ok = true → o = Outcome.exited 0) ∧
  (a.force = false → e.prune_ok = false →
    o = Outcome.exited (-10) ∧ Event.create ∉ t ∧ Event.sync ∉ t) ∧
  (a.force = false → e.prune_ok = true → e.create_ok = false →
    o = Outcome.exited (-20) ∧ Event.sync ∉ t) ∧
  (a.force = false → e.prune_ok = true → e.create_ok = true → e.sync_ok = false →
    o = Outcome.exited (-30)) ∧
  (a.force = true → ¬(e.prune_ok = true ∧ e.create_ok = true ∧ e.sync_ok = true) →
    Event.create ∈ t ∧ Event.sync ∈ t ∧ o = Outcome.exited (-40))

/-- Conjunction of the per-claim run properties, stated over the trace and
outcome of a run; `master_props` below establishes it for every run. -/
abbrev MasterProp (a : Args) (e : Env) (t : List Event) (o : Outcome) : Prop :=
  -- C1: phase invocations form an initial segment of prune, create, sync
  is_phase_initial (phase_events t) = true ∧
  -- C2: terminal-state discipline of a run that reached the phases
  (Event.prune ∈ t → run_concl a e t o) ∧
  -- C3: a failed precondition check aborts before prune, with its own code
  (precondition_failed e t →
    Event.prune ∉ t ∧ (o = Outcome.exited (-4) ∨ o = Outcome.exited (-5) ∨
      o = Outcome.exited (-6))) ∧
  -- C4: precondition checks run iff the live dataplane was queried with
  -- success; the --novpp path skips them and goes straight to the phases
  (((Event.phys_exist_in_vpp ∈ t ∨ Event.phys_exist_in_config ∈ t ∨
      Event.lcps_exist_with_lcp_enabled ∈ t) ↔
    (Event.readconfig ∈ t ∧ e.readconfig_ok = true)) ∧
   (a.command = Command.plan → a.novpp = true →
     (Event.readconfig ∉ t ∧ Event.phys_exist_in_vpp ∉ t ∧
       Event.phys_exist_in_config ∉ t ∧ Event.lcps_exist_with_lcp_enabled ∉ t) ∧
     (e.open_config_ok = true → e.valid_config_ok = true → e.mockconfig_ok = true →
       Event.prune ∈ t))) ∧
  -- C5: an invalid document aborts with -2 before the Reconciler exists
  (a.command ≠ Command.dump → e.open_config_ok = true → e.valid_config_ok = false →
    o = Outcome.exited (-2) ∧ Event.mk_reconciler ∉ t ∧ Event.readconfig ∉ t ∧
    Event.mockconfig ∉ t ∧ Event.dumper_readconfig ∉ t ∧ phase_events t = [] ∧
    (∀ b : Bool, Event.write b ∉ t)) ∧
  -- C6: the exit code of a failed run determines the failure category
  (∀ c : FailureClass, o = Outcome.exited (class_code c) → class_failed c a e t) ∧
  -- C7: a serialized plan carries emit_ok true iff all three phases succeeded
  ((∀ b : Bool, Event.write b ∈ t → b = (e.prune_ok && e.create_ok && e.sync_ok)) ∧
   (a.command = Command.plan → a.force = true → Event.prune ∈ t →
     Event.write (e.prune_ok && e.create_ok && e.sync_ok) ∈ t)) ∧
  -- C8: check returns exactly the validity verdict, touching nothing else
  (a.command = Command.check → e.open_config_ok = true →
    (e.valid_config_ok = true →
      o = Outcome.exited 0 ∧ Event.mk_reconciler ∉ t ∧ Event.readconfig ∉ t ∧
      Event.mockconfig ∉ t ∧ Event.dumper_readconfig ∉ t ∧ phase_events t = []) ∧
    (e.valid_config_ok = false → o = Outcome.exited (-2))) ∧
  -- C10: dump neither opens the config nor validates; it exits 0 or -7
  (a.command = Command.dump →
    Event.open_config ∉ t ∧ Event.valid_config ∉ t ∧ Event.mk_reconciler ∉ t ∧
    (o = Outcome.exited 0 ∨ o = Outcome.exited (-7)) ∧
    (e.dumper_readconfig_ok = true →
      t = [Event.dumper_readconfig, Event.dumper_write] ∧ o = Outcome.exited 0) ∧
    (e.dumper_readconfig_ok = false →
      o = Outcome.exited (-7) ∧ Event.dumper_write ∉ t))

/-- Modelled from the spec: the directive-by-directive replay of an
accumulated Directive Plan against the Dataplane Client during apply.  The
Reconciler and Dataplane Client implementations are not under `src/` (only
the orchestration shim is), so the replay loop is taken from the spec:
directives are issued in recorded order and replay stops at the first
directive the client reports as failed, neither reordering nor skipping nor
retrying.  `execute d` is the Dataplane Client's verdict on directive `d`;
the result records each directive actually issued, with its verdict. -/
def replay {α : Type} (execute : α → Bool) : List α → List (α × Bool)
  | [] => []
  | d :: rest =>
      if execute d then (d, true) :: replay execute rest else [(d, false)]

/-- Concrete arguments used by witnesses: plan with --novpp, no --force. -/
def plan_args : Args := ⟨Command.plan, false, true⟩

/-- Concrete arguments used by witnesses: plan against live state, --force set. -/
def plan_force_args : Args := ⟨Command.plan, true, false⟩

/-- Concrete arguments used by witnesses: plan with --novpp and --force. -/
def plan_force_novpp_args : Args := ⟨Command.plan, true, true⟩

/-- Concrete arguments used by witnesses: the check subcommand. -/
def check_args : Args := ⟨Command.check, false, false⟩

/-- Concrete arguments used by witnesses: the apply subcommand, --force set. -/
def apply_force_args : Args := ⟨Command.apply, true, false⟩

/-- Concrete arguments used by witnesses: the dump subcommand. -/
def dump_args : Args := ⟨Command.dump, false, false⟩

/-- Concrete environment in which every external call succeeds. -/
def env_all_ok : Env := ⟨true, true, true, true, true, true, true, true, true, true, true⟩

/-- Concrete environment in which the document fails validation. -/
def env_invalid_doc : Env := ⟨true, true, false, true, true, true, true, true, true, true, true⟩

/-- Concrete environment in which a configured PHY is missing from VPP. -/
def env_phys_missing : Env := ⟨true, true, true, true, true, false, true, true, true, true, true⟩

/-- Concrete environment in which the prune phase fails planning. -/
def env_prune_fails : Env := ⟨true, true, true, true, true, true, true, true, false, true, true⟩

end Vppcfg

namespace Vppcfg

theorem forall_failure_class (p : FailureClass → Prop) :
    (∀ c, p c) ↔ (p FailureClass.validation ∧ p FailureClass.phys_in_vpp ∧
      p FailureClass.phys_in_config ∧ p FailureClass.lcp ∧ p FailureClass.prune ∧
      p FailureClass.create ∧ p FailureClass.sync ∧ p FailureClass.forced) :=
  ⟨fun h => ⟨h _, h _, h _, h _, h _, h _, h _, h _⟩,
   fun h c => by cases c <;> simp_all⟩

theorem is_phase_initial_spec (t : List Event) (h : is_phase_initial t = true) :
    t = [] ∨ t = [Event.prune] ∨ t = [Event.prune, Event.create] ∨
    t = [Event.prune, Event.create, Event.sync] := by
  unfold is_phase_initial at h
  split at h <;> simp_all

theorem class_code_inj (c c₂ : FailureClass) (h : c ≠ c₂) :
    class_code c ≠ class_code c₂ := by
  cases c <;> cases c₂ <;> first
    | exact absurd rfl h
    | decide

set_option maxHeartbeats 4000000 in
/-- All the per-claim run properties hold of every run: proved by case
analysis that follows the branching structure of `main`. -/
theorem master_props (a : Args) (e : Env) :
    MasterProp a e (main a e).1 (main a e).2 := by
  obtain ⟨c, f, n⟩ := a
  obtain ⟨b1, b2, b3, b4, b5, b6, b7, b8, b9, b10, b11⟩ := e
  cases c with
  | check =>
    cases b2 <;> cases b3 <;>
      simp [MasterProp, run_concl, precondition_failed, class_failed, class_code,
        main, phases, phase_events, is_phase_initial, forall_failure_class,
        Bool.forall_bool]
  | dump =>
    cases b1 <;>
      simp [MasterProp, run_concl, precondition_failed, class_failed, class_code,
        main, phases, phase_events, is_phase_initial, forall_failure_class,
        Bool.forall_bool]
  | apply =>
    cases b2 <;> cases b3 <;>
      simp [MasterProp, run_concl, precondition_failed, class_failed, class_code,
        main, phases, phase_events, is_phase_initial, forall_failure_class,
        Bool.forall_bool]
  | plan =>
    cases n with
    | true =>
      cases b2 with
      | false =>
        simp [MasterProp, run_concl, precondition_failed, class_failed, class_code,
          main, phases, phase_events, is_phase_initial, forall_failure_class,
          Bool.forall_bool]
      | true =>
        cases b3 with
        | false =>
          simp [MasterProp, run_concl, precondition_failed, class_failed, class_code,
            main, phases, phase_events, is_phase_initial, forall_failure_class,
            Bool.forall_bool]
        | true =>
          cases b4 with
          | false =>
            simp [MasterProp, run_concl, precondition_failed, class_failed, class_code,
              main, phases, phase_events, is_phase_initial, forall_failure_class,
              Bool.forall_bool]
          | true =>
            cases f <;> cases b9 <;> cases b10 <;> cases b11 <;>
              simp [MasterProp, run_concl, precondition_failed, class_failed, class_code,
                main, phases, phase_events, is_phase_initial, forall_failure_class,
                Bool.forall_bool]
    | false =>
      cases b2 with
      | false =>
        simp [MasterProp, run_concl, precondition_failed, class_failed, class_code,
          main, phases, phase_events, is_phase_initial, forall_failure_class,
          Bool.forall_bool]
      | true =>
        cases b3 with
        | false =>
          simp [MasterProp, run_concl, precondition_failed, class_failed, class_code,
            main, phases, phase_events, is_phase_initial, forall_failure_class,
            Bool.forall_bool]
        | true =>
          cases b5 with
          | false =>
            simp [MasterProp, run_concl, precondition_failed, class_failed, class_code,
              main, phases, phase_events, is_phase_initial, forall_failure_class,
              Bool.forall_bool]
          | true =>
            cases b6 with
            | false =>
              simp [MasterProp, run_concl, precondition_failed, class_failed, class_code,
                main, phases, phase_events, is_phase_initial, forall_failure_class,
                Bool.forall_bool]
            | true =>
              cases b7 with
              | false =>
                simp [MasterProp, run_concl, precondition_failed, class_failed, class_code,
                  main, phases, phase_events, is_phase_initial, forall_failure_class,
                  Bool.forall_bool]
              | true =>
                cases b8 with
                | false =>
                  simp [MasterProp, run_concl, precondition_failed, class_failed, class_code,
                    main, phases, phase_events, is_phase_initial, forall_failure_class,
                    Bool.forall_bool]
                | true =>
                  cases f <;> cases b9 <;> cases b10 <;> cases b11 <;>
                    simp [MasterProp, run_concl, precondition_failed, class_failed,
                      class_code, main, phases, phase_events, is_phase_initial,
                      forall_failure_class, Bool.forall_bool]

/-- Claim C1: in every reconciliation run that reaches the planning phases,
the phases are invoked strictly in the order prune, then create, then sync:
the planning-phase events of any run's trace form an initial segment of
prune, create, sync, so no phase runs more than once, a later phase runs only
after every earlier one was attempted, and no phase is skipped in a run that
reaches the next one. -/
theorem phase_order (a : Args) (e : Env) :
    phase_events (main a e).1 = [] ∨ phase_events (main a e).1 = [Event.prune] ∨
    phase_events (main a e).1 = [Event.prune, Event.create] ∨
    phase_events (main a e).1 = [Event.prune, Event.create, Event.sync] :=
  is_phase_initial_spec _ (master_props a e).1

/-- Claim C2: a run that reaches the planning phases ends in exactly one of
three states: exit 0 when all three phases succeed; the failing phase's own
exit code (-10, -20, -30) with no later phase attempted when a phase fails
without --force; and exit -40 with all remaining phases still attempted when
a phase fails under --force. -/
theorem run_terminal (a : Args) (e : Env) (h : Event.prune ∈ (main a e).1) :
    run_concl a e (main a e).1 (main a e).2 :=
  (master_props a e).2.1 h

/-- Witness for claim C2: a plan run with --novpp in which every phase
succeeds reaches the phases and satisfies the terminal-state discipline. -/
theorem run_terminal_witness :
    Event.prune ∈ (main plan_args env_all_ok).1 ∧
    run_concl plan_args env_all_ok (main plan_args env_all_ok).1
      (main plan_args env_all_ok).2 :=
  ⟨by decide, run_terminal plan_args env_all_ok (by decide)⟩

/-- Claim C3: whenever one of the three precondition checks is invoked and
fails, the process exits with that check's exit code (-4, -5 or -6) before
the prune phase is invoked, regardless of the --force flag (the statement
quantifies over all arguments, --force included). -/
theorem precondition_aborts (a : Args) (e : Env)
    (h : precondition_failed e (main a e).1) :
    Event.prune ∉ (main a e).1 ∧
    ((main a e).2 = Outcome.exited (-4) ∨ (main a e).2 = Outcome.exited (-5) ∨
      (main a e).2 = Outcome.exited (-6)) :=
  (master_props a e).2.2.1 h

/-- Witness for claim C3: a live plan run with --force set whose
phys-exist-in-vpp check fails still aborts before prune, with exit -4. -/
theorem precondition_aborts_witness :
    precondition_failed env_phys_missing (main plan_force_args env_phys_missing).1 ∧
    (Event.prune ∉ (main plan_force_args env_phys_missing).1 ∧
      ((main plan_force_args env_phys_missing).2 = Outcome.exited (-4) ∨
        (main plan_force_args env_phys_missing).2 = Outcome.exited (-5) ∨
        (main plan_force_args env_phys_missing).2 = Outcome.exited (-6))) :=
  ⟨by decide, precondition_aborts plan_force_args env_phys_missing (by decide)⟩

/-- Claim C4: a precondition check is invoked if and only if the live
dataplane was queried and the query succeeded; on the --novpp path no check
is invoked and (when document loading, validation and the mock construction
succeed) the run proceeds directly to the phases. -/
theorem preconditions_iff_live (a : Args) (e : Env) :
    ((Event.phys_exist_in_vpp ∈ (main a e).1 ∨
        Event.phys_exist_in_config ∈ (main a e).1 ∨
        Event.lcps_exist_with_lcp_enabled ∈ (main a e).1) ↔
      (Event.readconfig ∈ (main a e).1 ∧ e.readconfig_ok = true)) ∧
    (a.command = Command.plan → a.novpp = true →
      (Event.readconfig ∉ (main a e).1 ∧
        Event.phys_exist_in_vpp ∉ (main a e).1 ∧
        Event.phys_exist_in_config ∉ (main a e).1 ∧
        Event.lcps_exist_with_lcp_enabled ∉ (main a e).1) ∧
      (e.open_config_ok = true → e.valid_config_ok = true → e.mockconfig_ok = true →
        Event.prune ∈ (main a e).1)) :=
  (master_props a e).2.2.2.1

/-- Witness for claim C4: a --novpp plan run invokes no precondition check,
never queries the live dataplane, and reaches the prune phase. -/
theorem preconditions_iff_live_witness :
    (Event.readconfig ∉ (main plan_args env_all_ok).1 ∧
      Event.phys_exist_in_vpp ∉ (main plan_args env_all_ok).1 ∧
      Event.phys_exist_in_config ∉ (main plan_args env_all_ok).1 ∧
      Event.lcps_exist_with_lcp_enabled ∉ (main plan_args env_all_ok).1) ∧
    Event.prune ∈ (main plan_args env_all_ok).1 :=
  ⟨((preconditions_iff_live plan_args env_all_ok).2 rfl rfl).1,
   ((preconditions_iff_live plan_args env_all_ok).2 rfl rfl).2 rfl rfl rfl⟩

/-- Claim C5: for every document that fails validation (under check, plan and
apply alike, and regardless of --force), the run exits with the validation
failure code -2 before a Reconciler is constructed, no dataplane state is
read or mocked, no phase runs, and no plan is written. -/
theorem invalid_doc_aborts (a : Args) (e : Env) (h1 : a.command ≠ Command.dump)
    (h2 : e.open_config_ok = true) (h3 : e.valid_config_ok = false) :
    (main a e).2 = Outcome.exited (-2) ∧
    Event.mk_reconciler ∉ (main a e).1 ∧
    Event.readconfig ∉ (main a e).1 ∧
    Event.mockconfig ∉ (main a e).1 ∧
    Event.dumper_readconfig ∉ (main a e).1 ∧
    phase_events (main a e).1 = [] ∧
    (∀ b : Bool, Event.write b ∉ (main a e).1) :=
  (master_props a e).2.2.2.2.1 h1 h2 h3

/-- Witness for claim C5: an apply run with --force on an invalid document
still aborts with -2 before any Reconciler, dataplane access or phase. -/
theorem invalid_doc_aborts_witness :
    apply_force_args.command ≠ Command.dump ∧
    ((main apply_force_args env_invalid_doc).2 = Outcome.exited (-2) ∧
      Event.mk_reconciler ∉ (main apply_force_args env_invalid_doc).1 ∧
      Event.readconfig ∉ (main apply_force_args env_invalid_doc).1 ∧
      Event.mockconfig ∉ (main apply_force_args env_invalid_doc).1 ∧
      Event.dumper_readconfig ∉ (main apply_force_args env_invalid_doc).1 ∧
      phase_events (main apply_force_args env_invalid_doc).1 = [] ∧
      (∀ b : Bool, Event.write b ∉ (main apply_force_args env_invalid_doc).1)) :=
  ⟨by decide, invalid_doc_aborts apply_force_args env_invalid_doc (by decide) rfl rfl⟩

/-- Claim C6: the exit codes of the failure categories (validation -2, the
three precondition checks -4, -5, -6, the three planning phases -10, -20,
-30, forced-partial -40) are pairwise distinct, and a run exiting with a
category's code really did fail in that category: the corresponding external
call was invoked and reported failure (respectively, for the forced-partial
code, --force was set and some phase failed after all three were attempted). -/
theorem exit_codes_distinguish (c c₂ : FailureClass) (a : Args) (e : Env)
    (h : c ≠ c₂) :
    class_code c ≠ class_code c₂ ∧
    ((main a e).2 = Outcome.exited (class_code c) →
      class_failed c a e (main a e).1) :=
  ⟨class_code_inj c c₂ h, fun ho => (master_props a e).2.2.2.2.2.1 c ho⟩

/-- Witness for claim C6: a check run on an invalid document exits with the
validation code -2, which differs from the forced-partial code and implies
that validation was invoked and failed. -/
theorem exit_codes_distinguish_witness :
    class_code FailureClass.validation ≠ class_code FailureClass.forced ∧
    class_failed FailureClass.validation check_args env_invalid_doc
      (main check_args env_invalid_doc).1 :=
  ⟨(exit_codes_distinguish FailureClass.validation FailureClass.forced check_args
      env_invalid_doc (by decide)).1,
   (exit_codes_distinguish FailureClass.validation FailureClass.forced check_args
      env_invalid_doc (by decide)).2 (by decide)⟩

/-- Claim C7: every serialized plan carries emit_ok true exactly when all
three phases succeeded, and a forced plan run that reached the phases does
reach serialization (emitting the marker computed from the phase results). -/
theorem plan_marks_partial_failure (a : Args) (e : Env) :
    (∀ b : Bool, Event.write b ∈ (main a e).1 →
      b = (e.prune_ok && e.create_ok && e.sync_ok)) ∧
    (a.command = Command.plan → a.force = true → Event.prune ∈ (main a e).1 →
      Event.write (e.prune_ok && e.create_ok && e.sync_ok) ∈ (main a e).1) :=
  (master_props a e).2.2.2.2.2.2.1

/-- Witness for claim C7: a forced --novpp plan run whose prune phase fails
still serializes the plan, with emit_ok false. -/
theorem plan_marks_partial_failure_witness :
    Event.write false ∈ (main plan_force_novpp_args env_prune_fails).1 ∧
    false = (env_prune_fails.prune_ok && env_prune_fails.create_ok &&
      env_prune_fails.sync_ok) ∧
    Event.write (env_prune_fails.prune_ok && env_prune_fails.create_ok &&
      env_prune_fails.sync_ok) ∈ (main plan_force_novpp_args env_prune_fails).1 :=
  ⟨by decide,
   (plan_marks_partial_failure plan_force_novpp_args env_prune_fails).1 false (by decide),
   (plan_marks_partial_failure plan_force_novpp_args env_prune_fails).2 rfl rfl (by decide)⟩

/-- Claim C8: the check command returns exactly the validity verdict: a valid
document exits 0 right after validation with no Reconciler, no dataplane
access and no phase, and an invalid document exits with the validation
failure code -2. -/
theorem check_validity_verdict (a : Args) (e : Env) (h1 : a.command = Command.check)
    (h2 : e.open_config_ok = true) :
    (e.valid_config_ok = true →
      (main a e).2 = Outcome.exited 0 ∧
      Event.mk_reconciler ∉ (main a e).1 ∧
      Event.readconfig ∉ (main a e).1 ∧
      Event.mockconfig ∉ (main a e).1 ∧
      Event.dumper_readconfig ∉ (main a e).1 ∧
      phase_events (main a e).1 = []) ∧
    (e.valid_config_ok = false → (main a e).2 = Outcome.exited (-2)) :=
  (master_props a e).2.2.2.2.2.2.2.1 h1 h2

/-- Witness for claim C8: check exits 0 on a valid document without touching
anything else, and exits -2 on an invalid one. -/
theorem check_validity_verdict_witness :
    ((main check_args env_all_ok).2 = Outcome.exited 0 ∧
      Event.mk_reconciler ∉ (main check_args env_all_ok).1 ∧
      Event.readconfig ∉ (main check_args env_all_ok).1 ∧
      Event.mockconfig ∉ (main check_args env_all_ok).1 ∧
      Event.dumper_readconfig ∉ (main check_args env_all_ok).1 ∧
      phase_events (main check_args env_all_ok).1 = []) ∧
    (main check_args env_invalid_doc).2 = Outcome.exited (-2) :=
  ⟨(check_validity_verdict check_args env_all_ok rfl rfl).1 rfl,
   (check_validity_verdict check_args env_invalid_doc rfl rfl).2 rfl⟩

/-- Claim C9: during apply, the accumulated plan is replayed directive by
directive in recorded order and replay halts at the first directive the
Dataplane Client reports as failed: the replayed sequence is exactly the
longest successful leading run of the plan, in order, followed by the first
failing directive, with nothing reordered, skipped or retried. -/
theorem replay_stops_at_first_failure {α : Type} (execute : α → Bool)
    (p : List α) :
    replay execute p =
      ((p.takeWhile execute).map fun d => (d, true)) ++
        ((p.dropWhile execute).take 1).map fun d => (d, false) := by
  induction p with
  | nil => rfl
  | cons d rest ih =>
    cases hE : execute d with
    | true => simp [replay, hE, ih, List.takeWhile_cons, List.dropWhile_cons]
    | false => simp [replay, hE, List.takeWhile_cons, List.dropWhile_cons]

/-- Claim C10: a dump run never opens the configuration file and never
invokes the Validator; it reads the live state and writes it out with exit 0,
or exits with its own failure code -7 when the live state cannot be
retrieved, independently of any configuration document. -/
theorem dump_independent (a : Args) (e : Env) (h : a.command = Command.dump) :
    Event.open_config ∉ (main a e).1 ∧
    Event.valid_config ∉ (main a e).1 ∧
    Event.mk_reconciler ∉ (main a e).1 ∧
    ((main a e).2 = Outcome.exited 0 ∨ (main a e).2 = Outcome.exited (-7)) ∧
    (e.dumper_readconfig_ok = true →
      (main a e).1 = [Event.dumper_readconfig, Event.dumper_write] ∧
      (main a e).2 = Outcome.exited 0) ∧
    (e.dumper_readconfig_ok = false →
      (main a e).2 = Outcome.exited (-7) ∧
      Event.dumper_write ∉ (main a e).1) :=
  (master_props a e).2.2.2.2.2.2.2.2 h

/-- Witness for claim C10: a successful dump run reads and writes the live
state only, and exits 0. -/
theorem dump_independent_witness :
    Event.open_config ∉ (main dump_args env_all_ok).1 ∧
    Event.valid_config ∉ (main dump_args env_all_ok).1 ∧
    (main dump_args env_all_ok).1 = [Event.dumper_readconfig, Event.dumper_write] ∧
    (main dump_args env_all_ok).2 = Outcome.exited 0 :=
  ⟨(dump_independent dump_args env_all_ok rfl).1,
   (dump_independent dump_args env_all_ok rfl).2.1,
   ((dump_independent dump_args env_all_ok rfl).2.2.2.2.1 rfl).1,
   ((dump_independent dump_args env_all_ok rfl).2.2.2.2.1 rfl).2⟩

end Vppcfg
